import Mathlib

/-!
Shallow embedding of the SNES I/O driver of `src/Firmware/src/SNES.c`
(SNESoIP firmware).  Machine integers (`uint16_t`, `uint32_t`) are
modelled as `Nat` with explicit masking / `% 2^w` where the C code can
overflow; the `u16Temp[3]` array is modelled as a total function
`Nat → Nat` of which only indices 0, 1, 2 are ever used; the read-input
thread's loop body is a step function on an explicit state record, and
the per-iteration GPIO reads are supplied as oracles
`r1 r2 : Nat → Bool` (first and second `gpio_get_level` call of cycle
`i`; the second call only happens in the code when the first returned
high).
-/

namespace SNESoIP

/-- Frame-assembly loop body of `_SNESReadInputThread` (SNES.c lines
365–383): process clock cycles `0 .. n-1` in order, starting from the
previous contents `prev` of the current `u16Temp` slot.  On cycle
`u8Bit < 12` the code reads the data line; if the first read is high it
reads again and sets the bit only when the second read is also high; if
the first read is low it clears the bit; otherwise the slot bit is left
untouched.  Cycles `12 .. 15` only burn time and never write.  The
`&&& (0xFFFF ^^^ (1 <<< n))` mirrors the C `u16Temp[u8Attempt] &=
~(1 << u8Bit)` on a `uint16_t`. -/
def captureBits (prev : Nat) (r1 r2 : Nat → Bool) : Nat → Nat
  | 0 => prev
  | n + 1 =>
    let acc := captureBits prev r1 r2 n
    if n < 12 then
      if r1 n then
        if r2 n then acc ||| (1 <<< n) else acc
      else
        acc &&& (0xFFFF ^^^ (1 <<< n))
    else acc

/-- Full 16-cycle frame capture of one loop iteration of
`_SNESReadInputThread` (SNES.c lines 365–383). -/
def captureFrame (prev : Nat) (r1 r2 : Nat → Bool) : Nat :=
  captureBits prev r1 r2 16

/-- RMT pulse-train entry, mirroring `rmt_item32_t` of the ESP-IDF as
used by `_InitSNESSigGen` (SNES.c lines 452–499): two (duration, level)
halves per entry. -/
structure RmtItem where
  duration0 : Nat
  level0 : Nat
  duration1 : Nat
  level1 : Nat
deriving DecidableEq, Repr

/-- Latch waveform data `stLatchItem`, set once by `_InitSNESSigGen`
(SNES.c lines 468–471): a single 12-tick active-high pulse. -/
def stLatchItem : List RmtItem := [⟨12, 1, 0, 0⟩]

/-- Latch channel idle level, `RMT_IDLE_LEVEL_LOW` (SNES.c line 462). -/
def latchIdleLevel : Nat := 0

/-- Clock waveform data `stClockItem`, set once by `_InitSNESSigGen`
(SNES.c lines 487–498): entry 0 is the short phase-shift entry
`{6,1,5,1}`, entries 1–16 are the regular half-duty cycles `{6,0,6,1}`. -/
def stClockItem : List RmtItem :=
  ⟨6, 1, 5, 1⟩ :: List.replicate 16 ⟨6, 0, 6, 1⟩

/-- Clock channel idle level, `RMT_IDLE_LEVEL_HIGH` (SNES.c line 481). -/
def clockIdleLevel : Nat := 1

/-- Total tick duration of one RMT entry. -/
def itemDuration (it : RmtItem) : Nat := it.duration0 + it.duration1

/-- Total tick duration of a waveform (sum of its entries). -/
def totalDuration (l : List RmtItem) : Nat := (l.map itemDuration).sum

/-- State of the SNES driver (`_stDriver`) together with the locals of
`_SNESReadInputThread` (`u16Temp[3]`, `u8Attempt`), SNES.c lines 98–121
and 349–350.  `u16Temp` models the 3-slot C array as a total function
of which only indices 0, 1, 2 are used. -/
structure ReadLoopState where
  bIsRunning : Bool
  u16InputData : Nat
  u32Port0Tx : Nat
  u16Temp : Nat → Nat
  u8Attempt : Nat

/-- Consensus filter extracted from the evaluation block of
`_SNESReadInputThread` (SNES.c lines 389–392): commit `f0` exactly when
the three accumulated frames agree bit-for-bit, otherwise keep the
previous committed value.  The function is total: disagreement is not
an error. -/
def tryCommit (committed f0 f1 f2 : Nat) : Nat :=
  if f0 = f1 ∧ f1 = f2 then f0 else committed

/-- Re-transmission encoding of the committed state (SNES.c lines
393–395): assign the 16-bit committed state into the 32-bit TX buffer,
shift left by one (`uint32_t` arithmetic, hence the `% 2^32`), then
force bit 0 low (`&= ~(1 << 0)`, i.e. `&&& 0xFFFFFFFE`). -/
def encodeTx (state : Nat) : Nat :=
  ((state <<< 1) % 2 ^ 32) &&& 0xFFFFFFFE

/-- One iteration of the `while (_stDriver.bIsRunning)` loop of
`_SNESReadInputThread` (SNES.c lines 359–402), with the two
`gpio_get_level` reads of cycle `i` supplied by the oracles `r1 r2`.
A capture fills slot `u8Attempt`; after the third capture of a group
(`u8Attempt + 1 > 2`) the consensus filter runs, the TX buffer is
re-encoded from the (possibly updated) committed value, and the attempt
counter is reset.  The queued SPI transaction is an external side
effect and is not part of the state. -/
def readStep (s : ReadLoopState) (r1 r2 : Nat → Bool) : ReadLoopState :=
  if s.bIsRunning then
    let frame := captureFrame (s.u16Temp s.u8Attempt) r1 r2
    let temps := Function.update s.u16Temp s.u8Attempt frame
    if s.u8Attempt + 1 > 2 then
      let committed := tryCommit s.u16InputData (temps 0) (temps 1) (temps 2)
      { s with u16Temp := temps, u8Attempt := 0,
               u16InputData := committed, u32Port0Tx := encodeTx committed }
    else
      { s with u16Temp := temps, u8Attempt := s.u8Attempt + 1 }
  else s

/-- Driver state right after `InitSNES` (SNES.c lines 144–152: memset
to zero, then `bIsRunning = true`, `u16InputData = 0xffff`,
`u32Port0Tx = 0xffffffff`) together with the freshly initialised thread
locals of `_SNESReadInputThread` (SNES.c lines 349–350:
`u16Temp = {0xffff, 0xffff, 0xffff}`, `u8Attempt = 0`). -/
def InitSNES : ReadLoopState :=
  { bIsRunning := true
    u16InputData := 0xFFFF
    u32Port0Tx := 0xFFFFFFFF
    u16Temp := fun _ => 0xFFFF
    u8Attempt := 0 }

/-- Stop request `DeInitSNES` (SNES.c lines 231–234): clear the run
condition, touch nothing else. -/
def DeInitSNES (s : ReadLoopState) : ReadLoopState :=
  { s with bIsRunning := false }

/-- Public read API `GetSNESInputData` (SNES.c lines 240–243): return
the committed controller value.  A pure total function: it never
blocks. -/
def GetSNESInputData (s : ReadLoopState) : Nat :=
  s.u16InputData

/-- Run `n` loop iterations from `s`; `inputs k` supplies the two GPIO
read oracles of iteration `k`. -/
def run (s : ReadLoopState) (inputs : Nat → (Nat → Bool) × (Nat → Bool)) :
    Nat → ReadLoopState
  | 0 => s
  | n + 1 => readStep (run s inputs n) (inputs n).1 (inputs n).2

/-- Decides whether the iteration starting in `s` with reads `r1 r2`
performs a successful commit, i.e. reaches the evaluation block with
three agreeing frames and writes `u16InputData` (SNES.c lines
387–392). -/
def commits (s : ReadLoopState) (r1 r2 : Nat → Bool) : Bool :=
  s.bIsRunning && decide (s.u8Attempt + 1 > 2) &&
    (let temps := Function.update s.u16Temp s.u8Attempt
        (captureFrame (s.u16Temp s.u8Attempt) r1 r2)
     decide (temps 0 = temps 1 ∧ temps 1 = temps 2))

/-- Diagnostic dump built by `_SNESDebugThread` (SNES.c lines 420–433):
one character per validated bit, `'0'` when `(v >> i) & 1` is set and
`'1'` otherwise, for `i = 0 .. 11`. -/
def debugDump (v : Nat) : List Char :=
  (List.range 12).map (fun i => if (v >>> i) &&& 1 = 1 then '0' else '1')

/-- Body of one `_SNESDebugThread` iteration (SNES.c lines 418–441) as
seen by the driver: it reads `u16InputData` into a local, formats the
dump into local buffers and logs it; it writes no field of `_stDriver`,
so the driver state is returned unchanged next to the produced text. -/
def debugIter (s : ReadLoopState) : ReadLoopState × List Char :=
  (s, debugDump s.u16InputData)

/-- Input oracle: the data line reads low on every sample. -/
def allLow : Nat → Bool := fun _ => false

/-- Input oracle: the data line reads high on every sample. -/
def allHigh : Nat → Bool := fun _ => true

/-- Iteration inputs where every cycle's two reads are both low. -/
def lowInputs : Nat → (Nat → Bool) × (Nat → Bool) := fun _ => (allLow, allLow)

/-- Iteration inputs whose first iteration reads all-high and whose
later iterations read all-low. -/
def c4Inputs : Nat → (Nat → Bool) × (Nat → Bool) := fun k =>
  if k = 0 then (allHigh, allHigh) else (allLow, allLow)

/-- Input history A: first group of 3 iterations reads all-low, later
iterations read high on the first sample and low on the second (the
retain path of the capture loop). -/
def inputsA : Nat → (Nat → Bool) × (Nat → Bool) := fun k =>
  if k < 3 then (allLow, allLow) else (allHigh, allLow)

/-- Input history B: identical to history A except in its very first
iteration, which reads all-high. -/
def inputsB : Nat → (Nat → Bool) × (Nat → Bool) := fun k =>
  if k = 0 then (allHigh, allHigh)
  else if k < 3 then (allLow, allLow)
  else (allHigh, allLow)

lemma testBit_mask_of_lt {i n : Nat} (hi : i < 16) :
    (0xFFFF ^^^ (1 <<< n)).testBit i = !(decide (n = i)) := by
  have h16 : (0xFFFF : Nat) = 2 ^ 16 - 1 := by norm_num
  rw [Nat.testBit_xor, h16, Nat.testBit_two_pow_sub_one, Nat.one_shiftLeft,
    Nat.testBit_two_pow]
  simp [hi]

lemma captureBits_testBit (prev : Nat) (r1 r2 : Nat → Bool) :
    ∀ n i, i < 16 →
      (captureBits prev r1 r2 n).testBit i =
        if i < n ∧ i < 12 then
          (if r1 i then (if r2 i then true else prev.testBit i) else false)
        else prev.testBit i := by
  intro n
  induction n with
  | zero =>
    intro i hi
    have h : ¬ (i < 0 ∧ i < 12) := by omega
    simp [captureBits, h]
  | succ n ih =>
    intro i hi
    by_cases hn : n < 12
    · by_cases hr1 : r1 n
      · by_cases hr2 : r2 n
        · -- both reads high: set bit n
          have : captureBits prev r1 r2 (n + 1) =
              captureBits prev r1 r2 n ||| (1 <<< n) := by
            simp [captureBits, hn, hr1, hr2]
          rw [this, Nat.testBit_or, Nat.one_shiftLeft, Nat.testBit_two_pow]
          by_cases hin : i = n
          · subst hin
            have hcond : i < i + 1 ∧ i < 12 := by omega
            simp [hcond, hr1, hr2]
          · have hni : ¬ (n = i) := fun h => hin h.symm
            have hiff : (i < n + 1 ∧ i < 12) ↔ (i < n ∧ i < 12) := by omega
            rw [ih i hi]
            simp only [hiff]
            simp [hni]
        · -- first read high, second low: leave bit untouched
          have : captureBits prev r1 r2 (n + 1) = captureBits prev r1 r2 n := by
            simp [captureBits, hn, hr1, hr2]
          rw [this, ih i hi]
          by_cases hin : i = n
          · subst hin
            have h₁ : ¬ (i < i ∧ i < 12) := by omega
            have h₂ : i < i + 1 ∧ i < 12 := by omega
            simp [h₁, h₂, hr1, hr2]
          · have hiff : (i < n + 1 ∧ i < 12) ↔ (i < n ∧ i < 12) := by omega
            simp only [hiff]
      · -- first read low: clear bit n
        have : captureBits prev r1 r2 (n + 1) =
            captureBits prev r1 r2 n &&& (0xFFFF ^^^ (1 <<< n)) := by
          simp [captureBits, hn, hr1]
        rw [this, Nat.testBit_and, testBit_mask_of_lt hi]
        by_cases hin : i = n
        · subst hin
          have hcond : i < i + 1 ∧ i < 12 := by omega
          simp [hcond, hr1]
        · have hni : ¬ (n = i) := fun h => hin h.symm
          have hiff : (i < n + 1 ∧ i < 12) ↔ (i < n ∧ i < 12) := by omega
          rw [ih i hi]
          simp [hni, hiff]
    · -- cycles 12..15: timed but never written
      have : captureBits prev r1 r2 (n + 1) = captureBits prev r1 r2 n := by
        simp [captureBits, hn]
      rw [this, ih i hi]
      have hiff : (i < n + 1 ∧ i < 12) ↔ (i < n ∧ i < 12) := by omega
      simp only [hiff]

lemma captureFrame_testBit (prev : Nat) (r1 r2 : Nat → Bool) (i : Nat)
    (hi : i < 16) :
    (captureFrame prev r1 r2).testBit i =
      if i < 12 then
        (if r1 i then (if r2 i then true else prev.testBit i) else false)
      else prev.testBit i := by
  rw [captureFrame, captureBits_testBit prev r1 r2 16 i hi]
  have hiff : (i < 16 ∧ i < 12) ↔ i < 12 := by omega
  simp only [hiff]

/-- **C1**: the consensus filter updates the committed state if and
only if the 3 most recently supplied frames are bit-for-bit identical;
three equal frames `0x0FFF` commit `0x0FFF`, the disagreeing group
`0x0FFF, 0x0EFF, 0x0FFF` leaves the prior value, no error is raised
(the filter is a total function), and after a group of 3 captures the
loop's committed field is exactly the filter applied to the three
accumulated frames. -/
theorem C1_consensus_iff (c f0 f1 f2 : Nat) :
    (f0 = f1 ∧ f1 = f2 → tryCommit c f0 f1 f2 = f0) ∧
    (¬ (f0 = f1 ∧ f1 = f2) → tryCommit c f0 f1 f2 = c) ∧
    tryCommit c 0x0FFF 0x0FFF 0x0FFF = 0x0FFF ∧
    tryCommit c 0x0FFF 0x0EFF 0x0FFF = c ∧
    (∀ (s : ReadLoopState) (r1 r2 : Nat → Bool),
      s.bIsRunning = true → s.u8Attempt = 2 →
      (readStep s r1 r2).u16InputData =
        tryCommit s.u16InputData (s.u16Temp 0) (s.u16Temp 1)
          (captureFrame (s.u16Temp 2) r1 r2)) := by
  refine ⟨?_, ?_, ?_, ?_, ?_⟩
  · intro h
    simp [tryCommit, h]
  · intro h
    simp [tryCommit, h]
  · simp [tryCommit]
  · simp [tryCommit]
  · intro s r1 r2 hrun hatt
    simp [readStep, hrun, hatt, Function.update]

/-- Closed witness for `C1_consensus_iff`. -/
theorem C1_consensus_iff_witness :
    tryCommit 5 7 7 7 = 7 ∧ tryCommit 5 7 8 7 = 5 ∧
    (readStep { InitSNES with u8Attempt := 2 } allLow allLow).u16InputData =
      tryCommit ({ InitSNES with u8Attempt := 2 } : ReadLoopState).u16InputData
        (({ InitSNES with u8Attempt := 2 } : ReadLoopState).u16Temp 0)
        (({ InitSNES with u8Attempt := 2 } : ReadLoopState).u16Temp 1)
        (captureFrame
          (({ InitSNES with u8Attempt := 2 } : ReadLoopState).u16Temp 2)
          allLow allLow) :=
  ⟨(C1_consensus_iff 5 7 7 7).1 ⟨rfl, rfl⟩,
   (C1_consensus_iff 5 7 8 7).2.1 (by decide),
   (C1_consensus_iff 0 0 0 0).2.2.2.2 _ allLow allLow rfl rfl⟩

/-- **C3**: for every 16-bit committed state, the re-transmission
encoding has bit 0 low and shifting it right by one recovers the
state. -/
theorem C3_encode_shift (state : Nat) (h : state < 2 ^ 16) :
    encodeTx state &&& 1 = 0 ∧ encodeTx state >>> 1 = state := by
  have henc : encodeTx state = 2 * state := by
    have hlt : state <<< 1 < 2 ^ 32 := by
      rw [Nat.shiftLeft_eq]
      norm_num
      omega
    apply Nat.eq_of_testBit_eq
    intro i
    rw [encodeTx, Nat.mod_eq_of_lt hlt]
    have hm : (0xFFFFFFFE : Nat) = (2 ^ 31 - 1) <<< 1 := by
      rw [Nat.shiftLeft_eq]
      norm_num
    have h2 : 2 * state = state <<< 1 := by
      rw [Nat.shiftLeft_eq]
      ring
    rw [Nat.testBit_and, hm, Nat.testBit_shiftLeft, Nat.testBit_shiftLeft,
      Nat.testBit_two_pow_sub_one, h2, Nat.testBit_shiftLeft]
    rcases Nat.eq_zero_or_pos i with hi | hi
    · subst hi
      simp
    · have h1i : (decide (1 ≤ i)) = true := by
        simp only [decide_eq_true_eq]
        omega
      rw [h1i]
      simp only [Bool.true_and]
      by_cases hbig : 16 ≤ i - 1
      · have hfb : state.testBit (i - 1) = false :=
          Nat.testBit_lt_two_pow (lt_of_lt_of_le h (Nat.pow_le_pow_right (by norm_num) hbig))
        simp [hfb]
      · have : (decide (i - 1 < 31)) = true := by
          simp only [decide_eq_true_eq]
          omega
        simp [this]
  refine ⟨?_, ?_⟩
  · rw [henc, Nat.and_one_is_mod, Nat.mul_mod_right]
  · rw [henc, Nat.shiftRight_succ, Nat.shiftRight_zero,
      Nat.mul_div_cancel_left state (by norm_num : 0 < 2)]

/-- Closed witness for `C3_encode_shift`. -/
theorem C3_encode_shift_witness :
    encodeTx 0xABCD &&& 1 = 0 ∧ encodeTx 0xABCD >>> 1 = 0xABCD :=
  C3_encode_shift 0xABCD (by norm_num)

/-- **C6**: the two waveform specifications are fixed constants: the
latch data is a single active-high 12-tick pulse with idle level low,
the clock data has exactly 17 entries — a shorter leading phase-shift
entry followed by 16 regular 6-low/6-high half-duty cycles — with idle
level high, and the total durations are the fixed constants 12 and 203
ticks. -/
theorem C6_waveform_shape :
    stLatchItem = [⟨12, 1, 0, 0⟩] ∧
    latchIdleLevel = 0 ∧
    clockIdleLevel = 1 ∧
    stClockItem.length = 17 ∧
    stClockItem[0]? = some ⟨6, 1, 5, 1⟩ ∧
    (∀ i, i < 17 → 1 ≤ i → stClockItem[i]? = some ⟨6, 0, 6, 1⟩) ∧
    itemDuration ⟨6, 1, 5, 1⟩ < itemDuration ⟨6, 0, 6, 1⟩ ∧
    totalDuration stLatchItem = 12 ∧
    totalDuration stClockItem = 203 := by
  decide

/-- Closed witness for `C6_waveform_shape`. -/
theorem C6_waveform_shape_witness :
    stClockItem[5]? = some ⟨6, 0, 6, 1⟩ :=
  C6_waveform_shape.2.2.2.2.2.1 5 (by decide) (by decide)

/-- **C7**: after a stop request (`DeInitSNES`) every subsequent loop
step leaves the state untouched — in particular no further write to the
committed state happens — and the last committed value stays readable
through `GetSNESInputData` for any number of further iterations.  The
run condition is tested at the top of the loop, so in this
iteration-granular model a stop takes effect only after the iteration
in progress has completed. -/
theorem C7_stop_semantics (s : ReadLoopState)
    (inputs : Nat → (Nat → Bool) × (Nat → Bool)) (n : Nat)
    (r1 r2 : Nat → Bool) :
    readStep (DeInitSNES s) r1 r2 = DeInitSNES s ∧
    run (DeInitSNES s) inputs n = DeInitSNES s ∧
    GetSNESInputData (run (DeInitSNES s) inputs n) = GetSNESInputData s := by
  have hstep : ∀ a b : Nat → Bool, readStep (DeInitSNES s) a b = DeInitSNES s := by
    intro a b
    simp [readStep, DeInitSNES]
  have hrun : run (DeInitSNES s) inputs n = DeInitSNES s := by
    induction n with
    | zero => rfl
    | succ n ih =>
      rw [run, ih, hstep]
  exact ⟨hstep r1 r2, hrun, by rw [hrun]; rfl⟩

/-- **C9**: the diagnostic dump of the committed state has exactly one
character per validated bit — 12 characters, the character at position
`i` being `'1'` exactly when bit `i` of the committed state is 0 and
`'0'` otherwise — and producing it is purely observational: the debug
thread's iteration returns the driver state unchanged. -/
theorem C9_debug_dump (s : ReadLoopState) (i : Nat) (hi : i < 12) :
    (debugDump (GetSNESInputData s)).length = 12 ∧
    (debugDump (GetSNESInputData s))[i]? =
      some (if (GetSNESInputData s).testBit i then '0' else '1') ∧
    ((debugDump (GetSNESInputData s))[i]? = some '1' ↔
      (GetSNESInputData s).testBit i = false) ∧
    (debugIter s).1 = s := by
  have hbit : ∀ v : Nat, ((v >>> i) &&& 1 = 1) ↔ v.testBit i = true := by
    intro v
    rw [Nat.and_one_is_mod, Nat.shiftRight_eq_div_pow, Nat.testBit_to_div_mod]
    simp
  have hgetd : (debugDump (GetSNESInputData s))[i]? =
      some (if (GetSNESInputData s).testBit i then '0' else '1') := by
    rw [debugDump, List.getElem?_map, List.getElem?_range hi]
    simp only [Option.map_some']
    congr 1
    cases hb : (GetSNESInputData s).testBit i
    · have hc : ¬ ((GetSNESInputData s >>> i) &&& 1 = 1) := by
        intro hcontra
        have ht := (hbit _).mp hcontra
        rw [ht] at hb
        exact Bool.noConfusion hb
      rw [if_neg hc, if_neg (by simp [hb])]
    · rw [if_pos ((hbit _).mpr hb), if_pos (by simp [hb])]
  refine ⟨by simp [debugDump], hgetd, ?_, rfl⟩
  rw [hgetd]
  cases hb : (GetSNESInputData s).testBit i
  · simp
  · simp [hb]

/-- Closed witness for `C9_debug_dump`. -/
theorem C9_debug_dump_witness :
    (debugDump (GetSNESInputData InitSNES)).length = 12 ∧
    ((debugDump (GetSNESInputData InitSNES))[3]? = some '1' ↔
      (GetSNESInputData InitSNES).testBit 3 = false) :=
  ⟨(C9_debug_dump InitSNES 3 (by decide)).1,
   (C9_debug_dump InitSNES 3 (by decide)).2.2.1⟩

/-- **C2**: the frame is assembled over 16 cycles in order; when the
input line is stable within each cycle (the claim's single "level
sampled on cycle `i`", so both reads of a cycle return it), bit `i` of
the assembled frame equals the level sampled on cycle `i` for
`i < 12`, while cycles 12–15 are timed but never write into the frame
(those bits keep their previous slot value). -/
theorem C2_frame_assembly (prev : Nat) (level : Nat → Bool) (i : Nat) :
    (i < 12 → (captureFrame prev level level).testBit i = level i) ∧
    (12 ≤ i → i < 16 →
      (captureFrame prev level level).testBit i = prev.testBit i) := by
  constructor
  · intro h
    rw [captureFrame_testBit prev level level i (by omega), if_pos h]
    cases hl : level i <;> simp [hl]
  · intro h1 h2
    rw [captureFrame_testBit prev level level i h2, if_neg (by omega)]

/-- Closed witness for `C2_frame_assembly`. -/
theorem C2_frame_assembly_witness :
    (captureFrame 0 allHigh allHigh).testBit 0 = allHigh 0 ∧
    (captureFrame 0xFFFF allLow allLow).testBit 13 = Nat.testBit 0xFFFF 13 :=
  ⟨(C2_frame_assembly 0 allHigh 0).1 (by decide),
   (C2_frame_assembly 0xFFFF allLow 13).2 (by decide) (by decide)⟩

/-- **C10**: within each capture cycle below 12 the input line is read
up to twice: the frame bit becomes 1 only if both reads are high, 0 if
the first read is low, and is left at the value it held from the
previous capture in the same accumulation slot when the first read is
high but the second is low; in the loop, the slot being written is
exactly `u8Attempt`, whose previous contents seed the capture. -/
theorem C10_double_read (prev : Nat) (r1 r2 : Nat → Bool) (i : Nat)
    (hi : i < 12) (s : ReadLoopState) (hrun : s.bIsRunning = true) :
    (captureFrame prev r1 r2).testBit i =
      (if r1 i then (if r2 i then true else prev.testBit i) else false) ∧
    (readStep s r1 r2).u16Temp s.u8Attempt =
      captureFrame (s.u16Temp s.u8Attempt) r1 r2 := by
  constructor
  · rw [captureFrame_testBit prev r1 r2 i (by omega), if_pos hi]
  · by_cases ha : s.u8Attempt + 1 > 2
    · simp [readStep, hrun, ha, Function.update]
    · simp [readStep, hrun, ha, Function.update]

/-- Closed witness for `C10_double_read`. -/
theorem C10_double_read_witness :
    (captureFrame 0xFFFF allHigh allLow).testBit 2 =
      (if allHigh 2 then (if allLow 2 then true else Nat.testBit 0xFFFF 2)
        else false) ∧
    (readStep InitSNES allHigh allLow).u16Temp InitSNES.u8Attempt =
      captureFrame (InitSNES.u16Temp InitSNES.u8Attempt) allHigh allLow :=
  ⟨(C10_double_read 0xFFFF allHigh allLow 2 (by decide) InitSNES rfl).1,
   (C10_double_read 0 allHigh allLow 0 (by decide) InitSNES rfl).2⟩

lemma readStep_u16InputData_of_not_commits (s : ReadLoopState)
    (r1 r2 : Nat → Bool) (h : commits s r1 r2 = false) :
    (readStep s r1 r2).u16InputData = s.u16InputData := by
  by_cases hb : s.bIsRunning = true
  · by_cases ha : s.u8Attempt + 1 > 2
    · have hne : ¬ (Function.update s.u16Temp s.u8Attempt
            (captureFrame (s.u16Temp s.u8Attempt) r1 r2) 0 =
          Function.update s.u16Temp s.u8Attempt
            (captureFrame (s.u16Temp s.u8Attempt) r1 r2) 1 ∧
          Function.update s.u16Temp s.u8Attempt
            (captureFrame (s.u16Temp s.u8Attempt) r1 r2) 1 =
          Function.update s.u16Temp s.u8Attempt
            (captureFrame (s.u16Temp s.u8Attempt) r1 r2) 2) := by
        intro hcontra
        rw [commits] at h
        simp [hb, ha, hcontra] at h
      simp [readStep, hb, ha, tryCommit, hne]
    · simp [readStep, hb, ha]
  · simp [readStep, hb]

/-- **C4**: reading the controller state never blocks (it is a total
pure function of the driver state), returns the all-bits-set default
`0xFFFF` right after initialisation, and keeps returning `0xFFFF` after
any number of loop iterations none of which performed a successful
commit. -/
theorem C4_default_before_commit
    (inputs : Nat → (Nat → Bool) × (Nat → Bool)) (n : Nat)
    (h : ∀ k, k < n →
      commits (run InitSNES inputs k) (inputs k).1 (inputs k).2 = false) :
    GetSNESInputData InitSNES = 0xFFFF ∧
    GetSNESInputData (run InitSNES inputs n) = 0xFFFF := by
  refine ⟨rfl, ?_⟩
  induction n with
  | zero => rfl
  | succ n ih =>
    have hstep := readStep_u16InputData_of_not_commits
      (run InitSNES inputs n) (inputs n).1 (inputs n).2 (h n (by omega))
    have ihh := ih (fun k hk => h k (by omega))
    show (readStep (run InitSNES inputs n) (inputs n).1 (inputs n).2).u16InputData
      = 0xFFFF
    rw [hstep]
    exact ihh

/-- Closed witness for `C4_default_before_commit`. -/
theorem C4_default_before_commit_witness :
    (∀ k, k < 3 →
      commits (run InitSNES c4Inputs k) (c4Inputs k).1 (c4Inputs k).2 = false) ∧
    GetSNESInputData (run InitSNES c4Inputs 3) = 0xFFFF :=
  ⟨by decide, (C4_default_before_commit c4Inputs 3 (by decide)).2⟩

/-- **C5 counterexample**: the claim that the reserved bits 12–15 of
every assembled frame are low is false on the code: the slots start at
`0xFFFF` and cycles 12–15 never write, so already the first assembled
frame — captured with the data line constantly low — is `0xF000`, whose
bits 12–15 are all high. -/
theorem C5_counterexample :
    (run InitSNES lowInputs 1).u16Temp 0 = 0xF000 ∧
    Nat.testBit 0xF000 12 = true ∧ Nat.testBit 0xF000 13 = true ∧
    Nat.testBit 0xF000 14 = true ∧ Nat.testBit 0xF000 15 = true := by
  refine ⟨by decide, by decide, by decide, by decide, by decide⟩

lemma readStep_high_bits (s : ReadLoopState) (r1 r2 : Nat → Bool)
    (hInv : ∀ slot i, 12 ≤ i → i < 16 → (s.u16Temp slot).testBit i = true) :
    ∀ slot i, 12 ≤ i → i < 16 →
      ((readStep s r1 r2).u16Temp slot).testBit i = true := by
  intro slot i h1 h2
  by_cases hb : s.bIsRunning = true
  · have hupd : ∀ slot', (Function.update s.u16Temp s.u8Attempt
        (captureFrame (s.u16Temp s.u8Attempt) r1 r2) slot').testBit i = true := by
      intro slot'
      by_cases hs : slot' = s.u8Attempt
      · subst hs
        rw [Function.update_same,
          captureFrame_testBit _ r1 r2 i h2, if_neg (by omega)]
        exact hInv _ i h1 h2
      · rw [Function.update_noteq hs]
        exact hInv _ i h1 h2
    by_cases ha : s.u8Attempt + 1 > 2
    · simpa [readStep, hb, ha] using hupd slot
    · simpa [readStep, hb, ha] using hupd slot
  · simpa [readStep, hb] using hInv slot i h1 h2

lemma run_high_bits (inputs : Nat → (Nat → Bool) × (Nat → Bool)) (n : Nat) :
    ∀ slot i, 12 ≤ i → i < 16 →
      ((run InitSNES inputs n).u16Temp slot).testBit i = true := by
  induction n with
  | zero =>
    intro slot i h1 h2
    show Nat.testBit 0xFFFF i = true
    have h16 : (0xFFFF : Nat) = 2 ^ 16 - 1 := by norm_num
    rw [h16, Nat.testBit_two_pow_sub_one]
    simp [h2]
  | succ n ih =>
    exact readStep_high_bits _ _ _ ih

/-- **C5 (amended)**: the reserved bits 12–15 of every frame slot, in
every state reachable from initialisation, are high (set), not low: the
slots are initialised to `0xFFFF` and cycles 12–15 never write, so the
reserved bits keep their initial high value in every assembled
frame. -/
theorem C5_reserved_bits_high (inputs : Nat → (Nat → Bool) × (Nat → Bool))
    (n slot i : Nat) (h1 : 12 ≤ i) (h2 : i < 16) :
    ((run InitSNES inputs n).u16Temp slot).testBit i = true :=
  run_high_bits inputs n slot i h1 h2

/-- Closed witness for `C5_reserved_bits_high`. -/
theorem C5_reserved_bits_high_witness :
    ((run InitSNES lowInputs 2).u16Temp 1).testBit 13 = true :=
  C5_reserved_bits_high lowInputs 2 1 13 (by decide) (by decide)

set_option maxHeartbeats 4000000 in
/-- **C8 counterexample**: the claim that the accumulated frames are
discarded after each consensus evaluation — so that no frame of a
previous group participates in the next group's evaluation — is false
on the code: histories A and B below supply bit-for-bit identical
inputs during the second group (iterations 3, 4, 5, both runs standing
at a fresh group with `u8Attempt = 0` after iteration 3), yet after the
second group's evaluation run A has committed `0xF000` while run B still
holds `0xFFFF`, because the second group's captures (first read high,
second read low on every cycle) retain the first group's frames, which
differ between the two histories. -/
theorem C8_counterexample :
    inputsA 3 = inputsB 3 ∧ inputsA 4 = inputsB 4 ∧ inputsA 5 = inputsB 5 ∧
    (run InitSNES inputsA 3).u8Attempt = 0 ∧
    (run InitSNES inputsB 3).u8Attempt = 0 ∧
    (run InitSNES inputsA 6).u16InputData = 0xF000 ∧
    (run InitSNES inputsB 6).u16InputData = 0xFFFF :=
  ⟨rfl, rfl, rfl, by decide, by decide, by decide, by decide⟩

/-- **C8 (amended)**: after each consensus evaluation only the attempt
counter is reset to start a new group of 3; the frame slots are not
cleared: slots 0 and 1 still hold the previous group's frames and slot
2 holds a capture seeded by its previous contents, so a previous
group's frame data can participate in the next group's evaluation
(through the retain path of the capture loop). -/
theorem C8_only_counter_reset (s : ReadLoopState) (r1 r2 : Nat → Bool)
    (hrun : s.bIsRunning = true) (hatt : s.u8Attempt = 2) :
    (readStep s r1 r2).u8Attempt = 0 ∧
    (readStep s r1 r2).u16Temp 0 = s.u16Temp 0 ∧
    (readStep s r1 r2).u16Temp 1 = s.u16Temp 1 ∧
    (readStep s r1 r2).u16Temp 2 = captureFrame (s.u16Temp 2) r1 r2 := by
  simp [readStep, hrun, hatt, Function.update]

/-- Closed witness for `C8_only_counter_reset`. -/
theorem C8_only_counter_reset_witness :
    (readStep { InitSNES with u8Attempt := 2 } allLow allLow).u8Attempt = 0 ∧
    (readStep { InitSNES with u8Attempt := 2 } allLow allLow).u16Temp 0 =
      ({ InitSNES with u8Attempt := 2 } : ReadLoopState).u16Temp 0 ∧
    (readStep { InitSNES with u8Attempt := 2 } allLow allLow).u16Temp 1 =
      ({ InitSNES with u8Attempt := 2 } : ReadLoopState).u16Temp 1 ∧
    (readStep { InitSNES with u8Attempt := 2 } allLow allLow).u16Temp 2 =
      captureFrame
        (({ InitSNES with u8Attempt := 2 } : ReadLoopState).u16Temp 2)
        allLow allLow :=
  C8_only_counter_reset _ allLow allLow rfl rfl

end SNESoIP
